import Mathlib

/-!
Verification of the command/event relay (`src/debugger/window/channel.rs`)
and the file-position utility (`src/pos.rs`) of the turtle_rs repository.

Floating point: the relay stores and transforms `f64` values.  We model an
`f64` as either an exactly-represented finite value (a rational, ignoring
rounding), a signed infinity, or NaN, so that the division-by-zero behaviour
of IEEE-754 (finite/0 = ±∞, 0/0 = NaN) is captured faithfully.
-/

/-- Model of an IEEE-754 binary64 value as used by the relay: a finite value
(held exactly as a rational), a signed infinity (`neg = true` for `-∞`), or
NaN. -/
inductive F where
  | fin (q : ℚ)
  | inf (neg : Bool)
  | nan
deriving DecidableEq, Repr

/-- IEEE-754 division on the model.  Finite values divide exactly; a finite
value divided by (positive) zero gives NaN when the numerator is zero and a
signed infinity otherwise. -/
def F.div : F → F → F
  | .fin a, .fin b =>
      if b = 0 then
        if a = 0 then .nan else .inf (decide (a < 0))
      else .fin (a / b)
  | .fin _, .inf _ => .fin 0
  | .inf s, .fin b => .inf (Bool.xor s (decide (b < 0)))
  | .inf _, .inf _ => .nan
  | .nan, _ => .nan
  | _, .nan => .nan

/-- IEEE-754 multiplication on the model. -/
def F.mul : F → F → F
  | .fin a, .fin b => .fin (a * b)
  | .fin a, .inf s => if a = 0 then .nan else .inf (Bool.xor (decide (a < 0)) s)
  | .inf s, .fin b => if b = 0 then .nan else .inf (Bool.xor s (decide (b < 0)))
  | .inf s, .inf t => .inf (Bool.xor s t)
  | .nan, _ => .nan
  | _, .nan => .nan

/-- `true` exactly on finite values; NaN and the infinities are the
degenerate outcomes of dividing by an unset (zero) viewport axis. -/
def F.isFinite : F → Bool
  | .fin _ => true
  | _ => false

/-- Modelled from the spec: `TCoord` is declared in the debugger module,
which is not under `src/`; the spec says a Coordinate is "a pair of
floating-point values representing a 2D point". -/
def TCoord := F × F

/-- Modelled from the spec: `TColor` is declared in the debugger module,
which is not under `src/`; the spec says a Color is "an opaque value passed
through unmodified", so it is a black-box wrapper this core never inspects. -/
structure TColor where
  val : Nat
deriving DecidableEq, Repr

/-- Modelled from the spec: `WindowCmd` is declared in the window module,
which is not under `src/`.  The spec gives the variants
`Draw(from, to, Color)`, `Clear`, `Print(text)`. -/
inductive WindowCmd where
  | Draw (f t : F × F) (col : TColor)
  | Clear
  | Print (msg : String)
deriving DecidableEq, Repr

/-- Modelled from the spec: `WindowEvent` is declared in the window module,
which is not under `src/`.  The spec requires "a pointer/click event carrying
a normalized Coordinate plus an opaque button/identifier payload; other event
kinds are opaque pass-throughs", and `ChannelWindow::events` matches on
`WindowEvent::MouseClicked(pos, _)`. -/
inductive WindowEvent where
  | MouseClicked (pos : F × F) (btn : Nat)
  | Other (payload : Nat)
deriving DecidableEq, Repr

/-- Model of `std::sync::mpsc::SendError<α>`: the rejected message is handed
back inside the error. -/
structure SendError (α : Type) where
  val : α
deriving DecidableEq, Repr

/-- Sender-side model of an `std::sync::mpsc` channel: the FIFO buffer of
messages already sent, plus whether the paired receiver is still alive. -/
structure ChannelState (α : Type) where
  buffer : List α
  receiverAlive : Bool
deriving DecidableEq, Repr

/-- `Sender::send`: appends the message to the FIFO buffer, or fails (handing
the message back) exactly when the receiver has been dropped. -/
def ChannelState.send (ch : ChannelState α) (a : α) :
    Except (SendError α) (ChannelState α) :=
  if ch.receiverAlive then .ok { ch with buffer := ch.buffer ++ [a] }
  else .error ⟨a⟩

/-- State of the boxed `FnOnce` slot (`InitFn`) held by the window: either the
constructor-provided callable is still stored, or it has been taken out by
`std::mem::replace` and a no-op closure sits in its place. -/
inductive InitFn where
  | provided
  | noop
deriving DecidableEq, Repr

/-- Model of `ChannelWindow`.  `initRuns` makes the side effect of the
constructor-provided `FnOnce` observable (the spec's "counter captured by the
initializer"); it is not a field of the Rust struct but the explicit-state
rendering of the closure's effect.  `eventsRx` is the receiver-side view of
the inbound event channel: the events buffered and not yet drained. -/
structure ChannelWindow where
  max_coord : F × F
  initFn : InitFn
  initRuns : Nat
  commands : ChannelState WindowCmd
  eventsRx : List WindowEvent
deriving DecidableEq, Repr

/-- `ChannelWindow::new`: stores the two channel handles and the initializer
and sets the viewport maximum to `(0.0, 0.0)`. -/
def ChannelWindow.new (commands : ChannelState WindowCmd)
    (events : List WindowEvent) (init : InitFn) : ChannelWindow :=
  { max_coord := (.fin 0, .fin 0)
    initFn := init
    initRuns := 0
    commands := commands
    eventsRx := events }

/-- `ChannelWindow::construct`: wires up fresh channel pairs (both sides
alive, nothing buffered) and builds the window around them with a provided
(no-op) initializer closure.  The backend's receiver and sender handles are
the other views of the same two buffers. -/
def ChannelWindow.construct : ChannelWindow :=
  ChannelWindow.new ⟨[], true⟩ [] .provided

/-- `Window::init` for `ChannelWindow`: `std::mem::replace` takes the stored
`FnOnce` out of the slot, puts a no-op closure in its place, and calls what
was taken out.  Running the provided callable is recorded in `initRuns`;
running the replacement no-op has no effect. -/
def ChannelWindow.init (w : ChannelWindow) : ChannelWindow :=
  match w.initFn with
  | .provided => { w with initFn := .noop, initRuns := w.initRuns + 1 }
  | .noop => { w with initFn := .noop }

/-- `Window::get_max_coords` for `ChannelWindow`. -/
def ChannelWindow.get_max_coords (w : ChannelWindow) : F × F :=
  w.max_coord

/-- `Window::set_max_x` for `ChannelWindow`. -/
def ChannelWindow.set_max_x (w : ChannelWindow) (max_x : F) : ChannelWindow :=
  { w with max_coord := (max_x, w.max_coord.2) }

/-- `Window::set_max_y` for `ChannelWindow`. -/
def ChannelWindow.set_max_y (w : ChannelWindow) (max_y : F) : ChannelWindow :=
  { w with max_coord := (w.max_coord.1, max_y) }

/-- The draw-side transform inlined in `ChannelWindow::draw`: divide each
axis of the point by the corresponding axis of the viewport maximum. -/
def normalizePoint (m p : F × F) : F × F :=
  (p.1.div m.1, p.2.div m.2)

/-- The events-side transform inlined in `ChannelWindow::events`: multiply
each axis of the point by the corresponding axis of the viewport maximum. -/
def denormalizePoint (m p : F × F) : F × F :=
  (p.1.mul m.1, p.2.mul m.2)

/-- `Window::draw` for `ChannelWindow`: normalizes both endpoints against the
current viewport maximum and sends `WindowCmd::Draw` downstream.  The source
calls `.unwrap()` on the send, so a send failure becomes a panic that unwinds
to the caller; we render that as the pair of the (unchanged) window and
`some` error, while a successful send yields the updated window and `none`. -/
def ChannelWindow.draw (w : ChannelWindow) (f t : F × F) (col : TColor) :
    ChannelWindow × Option (SendError WindowCmd) :=
  let f' := normalizePoint w.max_coord f
  let t' := normalizePoint w.max_coord t
  match w.commands.send (.Draw f' t' col) with
  | .ok ch => ({ w with commands := ch }, none)
  | .error e => (w, some e)

/-- `Window::clear` for `ChannelWindow`: sends `WindowCmd::Clear`; same
panic-on-disconnect rendering as `draw`. -/
def ChannelWindow.clear (w : ChannelWindow) :
    ChannelWindow × Option (SendError WindowCmd) :=
  match w.commands.send .Clear with
  | .ok ch => ({ w with commands := ch }, none)
  | .error e => (w, some e)

/-- `Window::print` for `ChannelWindow`: sends `WindowCmd::Print` with an
owned copy of the text; same panic-on-disconnect rendering as `draw`. -/
def ChannelWindow.print (w : ChannelWindow) (msg : String) :
    ChannelWindow × Option (SendError WindowCmd) :=
  match w.commands.send (.Print msg) with
  | .ok ch => ({ w with commands := ch }, none)
  | .error e => (w, some e)

/-- The per-event rescaling done inside `ChannelWindow::events`: a mouse
click has both axes of its position multiplied by the corresponding viewport
maximum axis; every other event is returned as it came. -/
def scaleEvent (m : F × F) : WindowEvent → WindowEvent
  | .MouseClicked pos btn => .MouseClicked (denormalizePoint m pos) btn
  | e => e

/-- `Window::events` for `ChannelWindow`: `try_iter` drains every currently
buffered event without blocking, each drained event is rescaled, and the
collected list is returned; the receiver buffer is left empty. -/
def ChannelWindow.events (w : ChannelWindow) :
    ChannelWindow × List WindowEvent :=
  ({ w with eventsRx := [] }, w.eventsRx.map (scaleEvent w.max_coord))

/-- One producer-side call among the three command-sending operations. -/
inductive ProducerOp where
  | draw (f t : F × F) (col : TColor)
  | clear
  | print (msg : String)
deriving DecidableEq, Repr

/-- Dispatch one producer call on the window. -/
def applyOp (w : ChannelWindow) : ProducerOp → ChannelWindow × Option (SendError WindowCmd)
  | .draw f t c => w.draw f t c
  | .clear => w.clear
  | .print m => w.print m

/-- Run a sequence of producer calls, stopping at the first failure. -/
def runOps (w : ChannelWindow) : List ProducerOp → ChannelWindow × Option (SendError WindowCmd)
  | [] => (w, none)
  | op :: ops =>
    match applyOp w op with
    | (w', none) => runOps w' ops
    | (w', some e) => (w', some e)

/-- The command a producer call places on the wire, given the viewport
maximum in force at the call. -/
def cmdOf (m : F × F) : ProducerOp → WindowCmd
  | .draw f t c => .Draw (normalizePoint m f) (normalizePoint m t) c
  | .clear => .Clear
  | .print s => .Print s

/-- `FilePos` from `src/pos.rs`: a line/column position in a file. -/
structure FilePos where
  line : Nat
  column : Nat
deriving DecidableEq, Repr

/-- `FilePos::new`. -/
def FilePos.new (line column : Nat) : FilePos :=
  { line := line, column := column }

/-- `FilePos::is_empty`. -/
def FilePos.isEmpty (p : FilePos) : Bool :=
  p.column = 0 && p.line = 0

/-- Model of `std::num::ParseIntError`'s kinds reachable from `usize`
parsing: empty input, a character that is not a valid digit, and positive
overflow past `usize::MAX`. -/
inductive ParseIntError where
  | Empty
  | InvalidDigit
  | PosOverflow
deriving DecidableEq, Repr

/-- `usize::MAX` on a 64-bit target. -/
def usizeMax : Nat := 2 ^ 64 - 1

/-- The digit-accumulation loop of Rust's integer parsing: each character
must be an ASCII digit, and the running value must stay within `usize`. -/
def parseDigits : Nat → List Char → Except ParseIntError Nat
  | acc, [] => .ok acc
  | acc, c :: rest =>
    if c.isDigit then
      let v := acc * 10 + (c.toNat - 48)
      if v ≤ usizeMax then parseDigits v rest
      else .error .PosOverflow
    else .error .InvalidDigit

/-- Model of `str::parse::<usize>` (`from_str_radix` base 10): empty input is
`Empty`; a lone `+` is `InvalidDigit`; a leading `+` is skipped; then the
digit loop runs (a `-` is not skipped for an unsigned type, so it fails in
the loop as an invalid digit). -/
def parseUsize (s : List Char) : Except ParseIntError Nat :=
  match s with
  | [] => .error .Empty
  | '+' :: [] => .error .InvalidDigit
  | '+' :: rest => parseDigits 0 rest
  | l => parseDigits 0 l

/-- Model of `str::split_once` with the predicate pattern
`|c: char| !c.is_ascii_digit()`: split at the first character that is not an
ASCII digit, dropping the delimiter; `none` when every character is a
digit. -/
def splitOnceNonDigit : List Char → Option (List Char × List Char)
  | [] => none
  | c :: rest =>
    if c.isDigit then
      (splitOnceNonDigit rest).map (fun p => (c :: p.1, p.2))
    else
      some ([], rest)

/-- `FilePosParseErr` from `src/pos.rs`. -/
inductive FilePosParseErr where
  | NoDelimiter
  | ParseError (e : ParseIntError)
deriving DecidableEq, Repr

/-- `<FilePos as FromStr>::from_str`: split at the first non-ASCII-digit
character (`NoDelimiter` when there is none), parse the part before it as the
line and the part after it as the column, propagating the first parse
failure wrapped in `ParseError` (the `?` on `line.parse()` fires first). -/
def FilePos.fromStr (s : List Char) : Except FilePosParseErr FilePos :=
  match splitOnceNonDigit s with
  | none => .error .NoDelimiter
  | some (l, c) =>
    match parseUsize l with
    | .error e => .error (.ParseError e)
    | .ok line =>
      match parseUsize c with
      | .error e => .error (.ParseError e)
      | .ok column => .ok (FilePos.new line column)

/-! ## Helper lemmas -/

/-- A window whose initializer slot already holds the replacement no-op is a
fixed point of `init`. -/
theorem init_fixed_of_noop (w : ChannelWindow) (h : w.initFn = .noop) :
    w.init = w := by
  cases w
  simp only [ChannelWindow.init] at *
  simp_all

/-- Iterating `init` on a window whose slot holds the no-op does nothing. -/
theorem init_iterate_fixed (n : Nat) (w : ChannelWindow) (h : w.initFn = .noop) :
    (ChannelWindow.init)^[n] w = w := by
  induction n with
  | zero => rfl
  | succ n ih =>
    rw [Function.iterate_succ_apply, init_fixed_of_noop w h, ih]

/-- A successful producer call appends exactly its wire command to the
outbound buffer and changes nothing else. -/
theorem applyOp_ok (w : ChannelWindow) (op : ProducerOp)
    (h : w.commands.receiverAlive = true) :
    applyOp w op =
      ({ w with commands :=
          { w.commands with buffer := w.commands.buffer ++ [cmdOf w.max_coord op] } },
       none) := by
  cases op <;>
    simp [applyOp, ChannelWindow.draw, ChannelWindow.clear, ChannelWindow.print,
      ChannelState.send, h, cmdOf]

/-- A window wired to a command channel whose receiver has been dropped. -/
def deadWindow : ChannelWindow :=
  ChannelWindow.new ⟨[], false⟩ [] .provided

/-! ## Claims -/

/-- C1: when the backend's command receiver has been dropped, each of
`draw`, `clear` and `print` surfaces the send failure to the caller (the
unwrapped send error carries the rejected command) and leaves the endpoint's
own state exactly as it was. -/
theorem draw_clear_print_propagate_send_failure (w : ChannelWindow)
    (f t : F × F) (col : TColor) (msg : String)
    (h : w.commands.receiverAlive = false) :
    w.draw f t col =
      (w, some ⟨.Draw (normalizePoint w.max_coord f)
                      (normalizePoint w.max_coord t) col⟩) ∧
    w.clear = (w, some ⟨.Clear⟩) ∧
    w.print msg = (w, some ⟨.Print msg⟩) := by
  refine ⟨?_, ?_, ?_⟩ <;>
    simp [ChannelWindow.draw, ChannelWindow.clear, ChannelWindow.print,
      ChannelState.send, h]

/-- Witness for C1 at a concrete disconnected endpoint. -/
theorem draw_clear_print_propagate_send_failure_witness :
    deadWindow.commands.receiverAlive = false ∧
    (deadWindow.draw (.fin 1, .fin 2) (.fin 3, .fin 4) ⟨7⟩ =
      (deadWindow, some ⟨.Draw (normalizePoint deadWindow.max_coord (.fin 1, .fin 2))
                               (normalizePoint deadWindow.max_coord (.fin 3, .fin 4)) ⟨7⟩⟩) ∧
     deadWindow.clear = (deadWindow, some ⟨.Clear⟩) ∧
     deadWindow.print "hi" = (deadWindow, some ⟨.Print "hi"⟩)) :=
  ⟨rfl, draw_clear_print_propagate_send_failure deadWindow
    (.fin 1, .fin 2) (.fin 3, .fin 4) ⟨7⟩ "hi" rfl⟩

/-- C5: starting from a window holding the constructor-provided initializer,
`n` calls to `init` run the provided initializer `min n 1` times — never if
`init` is not called, exactly once as soon as it is called at least once —
and any call after a first one is a no-op on the endpoint. -/
theorem init_runs_initializer_at_most_once (n : Nat)
    (ch : ChannelState WindowCmd) (evs : List WindowEvent) :
    ((ChannelWindow.init)^[n] (ChannelWindow.new ch evs .provided)).initRuns
      = min n 1 ∧
    (∀ w : ChannelWindow, w.init.init = w.init) := by
  constructor
  · cases n with
    | zero => rfl
    | succ m =>
      rw [Function.iterate_succ_apply]
      have h1 : (ChannelWindow.new ch evs .provided).init
          = { ChannelWindow.new ch evs .provided with
                initFn := .noop, initRuns := 1 } := rfl
      rw [h1, init_iterate_fixed m _ rfl]
      simp [Nat.min_def]
  · intro w
    apply init_fixed_of_noop
    cases w with
    | mk mc ifn ir cmds evr => cases ifn <;> rfl

/-- C6: `events` is a non-blocking snapshot drain: it returns one output
event per buffered event, in buffer order (index for index), leaves the
inbound buffer empty, and on a freshly constructed endpoint (nothing sent)
returns the empty sequence. -/
theorem events_drains_all_buffered_nonblocking (w : ChannelWindow) :
    (w.events.2).length = w.eventsRx.length ∧
    (∀ i : Nat, (w.events.2)[i]? =
      (w.eventsRx[i]?).map (scaleEvent w.max_coord)) ∧
    (w.events.1).eventsRx = [] ∧
    ChannelWindow.construct.events.2 = [] := by
  refine ⟨?_, ?_, rfl, rfl⟩
  · simp [ChannelWindow.events]
  · intro i
    simp [ChannelWindow.events, List.getElem?_map]

/-- C8: `set_max_x` changes only the x axis of the viewport maximum and
`set_max_y` only the y axis (for any value, zero and negatives included);
the initializer slot, its run count and both channel handles are untouched,
and `get_max_coords` returns the updated pair. -/
theorem set_max_axes_independent_frame (w : ChannelWindow) (vx vy : F) :
    (w.set_max_x vx).max_coord = (vx, w.max_coord.2) ∧
    (w.set_max_y vy).max_coord = (w.max_coord.1, vy) ∧
    (w.set_max_x vx).initFn = w.initFn ∧
    (w.set_max_x vx).initRuns = w.initRuns ∧
    (w.set_max_x vx).commands = w.commands ∧
    (w.set_max_x vx).eventsRx = w.eventsRx ∧
    (w.set_max_y vy).initFn = w.initFn ∧
    (w.set_max_y vy).initRuns = w.initRuns ∧
    (w.set_max_y vy).commands = w.commands ∧
    (w.set_max_y vy).eventsRx = w.eventsRx ∧
    (w.set_max_x vx).get_max_coords = (vx, w.max_coord.2) ∧
    (w.set_max_y vy).get_max_coords = (w.max_coord.1, vy) ∧
    ((w.set_max_x vx).set_max_y vy).get_max_coords = (vx, vy) := by
  refine ⟨rfl, rfl, rfl, rfl, rfl, rfl, rfl, rfl, rfl, rfl, rfl, rfl, rfl⟩

/-- C2: with both viewport maxima non-zero (and all values finite), the
events-side denormalization undoes the draw-side normalization exactly:
dividing each axis by the maximum and then multiplying it back returns the
original logical coordinates.  Finite values are modelled as exact rationals,
so the identity holds with zero tolerance. -/
theorem normalize_denormalize_roundtrip (x y mx my : ℚ)
    (hx : mx ≠ 0) (hy : my ≠ 0) :
    denormalizePoint (.fin mx, .fin my)
      (normalizePoint (.fin mx, .fin my) (.fin x, .fin y)) = (.fin x, .fin y) := by
  simp [normalizePoint, denormalizePoint, F.div, F.mul, hx, hy,
    div_mul_cancel₀]

/-- Witness for C2 at `(x, y) = (3, 5)` under maxima `(200, 100)`. -/
theorem normalize_denormalize_roundtrip_witness :
    (200 : ℚ) ≠ 0 ∧ (100 : ℚ) ≠ 0 ∧
    denormalizePoint (.fin 200, .fin 100)
      (normalizePoint (.fin 200, .fin 100) (.fin 3, .fin 5)) = (.fin 3, .fin 5) :=
  ⟨by norm_num, by norm_num,
    normalize_denormalize_roundtrip 3 5 200 100 (by norm_num) (by norm_num)⟩

/-- C3: a successful `draw` appends exactly
`Draw(from / max, to / max, color)` to the outbound channel, the color
passed through untouched; in particular after `set_max_x 200` and
`set_max_y 100`, drawing from `(0,0)` to `(200,100)` puts
`Draw((0,0), (1,1), color)` on the wire. -/
theorem draw_sends_normalized_command (w : ChannelWindow) (f t : F × F)
    (col : TColor) (h : w.commands.receiverAlive = true) :
    w.draw f t col =
      ({ w with commands :=
          { w.commands with buffer := w.commands.buffer ++
              [.Draw (normalizePoint w.max_coord f)
                     (normalizePoint w.max_coord t) col] } }, none) ∧
    (((ChannelWindow.construct.set_max_x (.fin 200)).set_max_y
        (.fin 100)).draw (.fin 0, .fin 0) (.fin 200, .fin 100) col).1.commands.buffer
      = [.Draw (.fin 0, .fin 0) (.fin 1, .fin 1) col] := by
  constructor
  · simp [ChannelWindow.draw, ChannelState.send, h]
  · have h200 : (200 : ℚ) ≠ 0 := by norm_num
    have h100 : (100 : ℚ) ≠ 0 := by norm_num
    simp [ChannelWindow.draw, ChannelWindow.construct, ChannelWindow.new,
      ChannelWindow.set_max_x, ChannelWindow.set_max_y, ChannelState.send,
      normalizePoint, F.div, h200, h100]

/-- Witness for C3 on a freshly constructed (connected) endpoint. -/
theorem draw_sends_normalized_command_witness :
    ChannelWindow.construct.commands.receiverAlive = true ∧
    (ChannelWindow.construct.draw (.fin 1, .fin 2) (.fin 3, .fin 4) ⟨9⟩ =
      ({ ChannelWindow.construct with commands :=
          { ChannelWindow.construct.commands with
              buffer := ChannelWindow.construct.commands.buffer ++
                [.Draw (normalizePoint ChannelWindow.construct.max_coord (.fin 1, .fin 2))
                       (normalizePoint ChannelWindow.construct.max_coord (.fin 3, .fin 4)) ⟨9⟩] } },
       none) ∧
     (((ChannelWindow.construct.set_max_x (.fin 200)).set_max_y
        (.fin 100)).draw (.fin 0, .fin 0) (.fin 200, .fin 100) ⟨9⟩).1.commands.buffer
      = [.Draw (.fin 0, .fin 0) (.fin 1, .fin 1) ⟨9⟩]) :=
  ⟨rfl, draw_sends_normalized_command ChannelWindow.construct
    (.fin 1, .fin 2) (.fin 3, .fin 4) ⟨9⟩ rfl⟩

/-- On a live channel, running a sequence of producer calls succeeds and
appends exactly the issued wire commands to the buffer, in order. -/
theorem runOps_ok (ops : List ProducerOp) (w : ChannelWindow)
    (h : w.commands.receiverAlive = true) :
    runOps w ops =
      ({ w with commands := { w.commands with
          buffer := w.commands.buffer ++ ops.map (cmdOf w.max_coord) } },
       none) := by
  induction ops generalizing w with
  | nil => simp [runOps]
  | cons op rest ih =>
    have hop := applyOp_ok w op h
    have hrest := ih { w with commands := { w.commands with
        buffer := w.commands.buffer ++ [cmdOf w.max_coord op] } } h
    simp [runOps, hop, hrest, List.append_assoc]

/-- C7: while the backend's receiver is alive, any sequence of
draw/clear/print calls all succeed and the outbound FIFO buffer — which is
exactly what the backend reads, in order — grows by precisely the issued
commands: one wire command per call, in issue order, none lost or
duplicated. -/
theorem commands_delivered_fifo_exactly (w : ChannelWindow)
    (ops : List ProducerOp) (h : w.commands.receiverAlive = true) :
    (runOps w ops).2 = none ∧
    (runOps w ops).1.commands.buffer =
      w.commands.buffer ++ ops.map (cmdOf w.max_coord) ∧
    (ops.map (cmdOf w.max_coord)).length = ops.length := by
  rw [runOps_ok ops w h]
  exact ⟨rfl, rfl, List.length_map _ _⟩

/-- Witness for C7: three commands on a fresh endpoint arrive in order. -/
theorem commands_delivered_fifo_exactly_witness :
    ChannelWindow.construct.commands.receiverAlive = true ∧
    ((runOps ChannelWindow.construct
        [.clear, .print "a", .draw (.fin 1, .fin 1) (.fin 2, .fin 2) ⟨3⟩]).2 = none ∧
     (runOps ChannelWindow.construct
        [.clear, .print "a", .draw (.fin 1, .fin 1) (.fin 2, .fin 2) ⟨3⟩]).1.commands.buffer =
       ChannelWindow.construct.commands.buffer ++
         ([.clear, .print "a", .draw (.fin 1, .fin 1) (.fin 2, .fin 2) ⟨3⟩].map
           (cmdOf ChannelWindow.construct.max_coord)) ∧
     (([.clear, .print "a", .draw (.fin 1, .fin 1) (.fin 2, .fin 2) ⟨3⟩].map
        (cmdOf ChannelWindow.construct.max_coord)).length =
       [ProducerOp.clear, .print "a", .draw (.fin 1, .fin 1) (.fin 2, .fin 2) ⟨3⟩].length)) :=
  ⟨rfl, commands_delivered_fifo_exactly ChannelWindow.construct
    [.clear, .print "a", .draw (.fin 1, .fin 1) (.fin 2, .fin 2) ⟨3⟩] rfl⟩

/-- C9: a freshly built endpoint (via `new` or `construct`) has viewport
maximum `(0.0, 0.0)`; dividing any value by an unset (zero) axis never
yields a finite value (it is NaN or an infinity), and a `draw` issued on a
fresh connected endpoint therefore succeeds — no error is raised — while
placing a command whose four normalized components are all degenerate on the
wire. -/
theorem fresh_viewport_zero_draw_degenerate (ch : ChannelState WindowCmd)
    (evs : List WindowEvent) (ifn : InitFn) (f t : F × F) (col : TColor)
    (h : ch.receiverAlive = true) :
    (ChannelWindow.new ch evs ifn).max_coord = (.fin 0, .fin 0) ∧
    ChannelWindow.construct.max_coord = (.fin 0, .fin 0) ∧
    (∀ a : F, (a.div (.fin 0)).isFinite = false) ∧
    ((ChannelWindow.new ch evs ifn).draw f t col =
      ({ ChannelWindow.new ch evs ifn with commands :=
          { ch with buffer := ch.buffer ++
              [.Draw (normalizePoint (.fin 0, .fin 0) f)
                     (normalizePoint (.fin 0, .fin 0) t) col] } }, none)) ∧
    (normalizePoint (.fin 0, .fin 0) f).1.isFinite = false ∧
    (normalizePoint (.fin 0, .fin 0) f).2.isFinite = false ∧
    (normalizePoint (.fin 0, .fin 0) t).1.isFinite = false ∧
    (normalizePoint (.fin 0, .fin 0) t).2.isFinite = false := by
  have hdeg : ∀ a : F, (a.div (.fin 0)).isFinite = false := by
    intro a
    cases a with
    | fin q =>
      by_cases hq : q = 0 <;> simp [F.div, F.isFinite, hq]
    | inf s => simp [F.div, F.isFinite]
    | nan => simp [F.div, F.isFinite]
  refine ⟨rfl, rfl, hdeg, ?_, hdeg _, hdeg _, hdeg _, hdeg _⟩
  simp [ChannelWindow.draw, ChannelWindow.new, ChannelState.send, h]

/-- Witness for C9 on concrete channel state and draw arguments. -/
theorem fresh_viewport_zero_draw_degenerate_witness :
    (ChannelState.mk ([] : List WindowCmd) true).receiverAlive = true ∧
    ((ChannelWindow.new ⟨[], true⟩ [] .provided).max_coord = (.fin 0, .fin 0) ∧
     ChannelWindow.construct.max_coord = (.fin 0, .fin 0) ∧
     (∀ a : F, (a.div (.fin 0)).isFinite = false) ∧
     ((ChannelWindow.new ⟨[], true⟩ [] .provided).draw (.fin 5, .fin 0) (.fin 7, .fin (-2)) ⟨1⟩ =
       ({ ChannelWindow.new ⟨[], true⟩ [] .provided with commands :=
           { ChannelState.mk ([] : List WindowCmd) true with buffer :=
               (ChannelState.mk ([] : List WindowCmd) true).buffer ++
                 [.Draw (normalizePoint (.fin 0, .fin 0) (.fin 5, .fin 0))
                        (normalizePoint (.fin 0, .fin 0) (.fin 7, .fin (-2))) ⟨1⟩] } }, none)) ∧
     (normalizePoint (.fin 0, .fin 0) (.fin 5, .fin 0)).1.isFinite = false ∧
     (normalizePoint (.fin 0, .fin 0) (.fin 5, .fin 0)).2.isFinite = false ∧
     (normalizePoint (.fin 0, .fin 0) (.fin 7, .fin (-2))).1.isFinite = false ∧
     (normalizePoint (.fin 0, .fin 0) (.fin 7, .fin (-2))).2.isFinite = false) :=
  ⟨rfl, fresh_viewport_zero_draw_degenerate ⟨[], true⟩ [] .provided
    (.fin 5, .fin 0) (.fin 7, .fin (-2)) ⟨1⟩ rfl⟩

/-- The backend's event sender: buffers one event on the inbound channel. -/
def pushEvent (w : ChannelWindow) (e : WindowEvent) : ChannelWindow :=
  { w with eventsRx := w.eventsRx ++ [e] }

/-- C4: `events` returns, index for index, each buffered coordinate-carrying
event with its position multiplied axis-wise by the current viewport
maximum, and each coordinate-free event untouched; in particular a click at
normalized `(1/2, 1/2)` under viewport maximum `(200, 100)` comes back at
logical `(100, 50)`. -/
theorem events_rescales_coordinate_events (w : ChannelWindow) (i : Nat)
    (p : F × F) (b : Nat) (n : Nat) :
    (w.events.2)[i]? = (w.eventsRx[i]?).map (scaleEvent w.max_coord) ∧
    scaleEvent w.max_coord (.MouseClicked p b) =
      .MouseClicked (denormalizePoint w.max_coord p) b ∧
    scaleEvent w.max_coord (.Other n) = .Other n ∧
    ((pushEvent ((ChannelWindow.construct.set_max_x (.fin 200)).set_max_y
        (.fin 100)) (.MouseClicked (.fin (1/2), .fin (1/2)) 3)).events).2 =
      [.MouseClicked (.fin 100, .fin 50) 3] := by
  refine ⟨?_, rfl, rfl, ?_⟩
  · simp [ChannelWindow.events, List.getElem?_map]
  · simp [ChannelWindow.events, pushEvent, scaleEvent, denormalizePoint,
      F.mul, ChannelWindow.construct, ChannelWindow.new,
      ChannelWindow.set_max_x, ChannelWindow.set_max_y]
    norm_num

/-- `split_once` on the non-digit predicate returns `none` exactly when
every character of the input is an ASCII digit. -/
theorem splitOnceNonDigit_eq_none_iff (s : List Char) :
    splitOnceNonDigit s = none ↔ ∀ c ∈ s, c.isDigit = true := by
  induction s with
  | nil => simp [splitOnceNonDigit]
  | cons c rest ih =>
    by_cases hc : c.isDigit = true
    · simp [splitOnceNonDigit, hc, ih]
    · simp [splitOnceNonDigit, hc]

/-- When some character is not a digit, `split_once` splits at the first
such character: the digits before it, and the remainder after it. -/
theorem splitOnceNonDigit_eq_some (s : List Char)
    (h : ¬ ∀ c ∈ s, c.isDigit = true) :
    splitOnceNonDigit s =
      some (s.takeWhile Char.isDigit, (s.dropWhile Char.isDigit).tail) := by
  induction s with
  | nil => simp at h
  | cons c rest ih =>
    by_cases hc : c.isDigit = true
    · have hrest : ¬ ∀ x ∈ rest, x.isDigit = true := fun hall =>
        h (List.forall_mem_cons.mpr ⟨hc, hall⟩)
      simp [splitOnceNonDigit, hc, ih hrest]
    · simp [splitOnceNonDigit, hc]

/-- C10: `FilePos::from_str` returns `NoDelimiter` exactly when the input
contains no non-ASCII-digit character; otherwise it splits at the first
non-digit character, parses the digit run before it as the line and the
remainder after it as the column, and wraps the first integer-parse failure
in `ParseError` — an empty part fails with the `Empty` parse error. -/
theorem fromStr_splits_at_first_nondigit (s : List Char) :
    (FilePos.fromStr s = .error .NoDelimiter ↔ ∀ c ∈ s, c.isDigit = true) ∧
    ((¬ ∀ c ∈ s, c.isDigit = true) →
      FilePos.fromStr s =
        (match parseUsize (s.takeWhile Char.isDigit) with
         | .error e => .error (.ParseError e)
         | .ok line =>
           match parseUsize ((s.dropWhile Char.isDigit).tail) with
           | .error e => .error (.ParseError e)
           | .ok column => .ok (FilePos.new line column))) ∧
    parseUsize [] = .error .Empty := by
  refine ⟨⟨?_, ?_⟩, ?_, rfl⟩
  · intro h
    by_contra hall
    simp only [FilePos.fromStr, splitOnceNonDigit_eq_some s hall] at h
    split at h
    · simp at h
    · split at h <;> simp at h
  · intro hall
    simp only [FilePos.fromStr, (splitOnceNonDigit_eq_none_iff s).mpr hall]
  · intro hall
    simp only [FilePos.fromStr, splitOnceNonDigit_eq_some s hall]

/-- Witness for C10 at the concrete input `"12:34"`. -/
theorem fromStr_splits_at_first_nondigit_witness :
    (¬ ∀ c ∈ (['1', '2', ':', '3', '4'] : List Char), c.isDigit = true) ∧
    FilePos.fromStr ['1', '2', ':', '3', '4'] =
      (match parseUsize (List.takeWhile Char.isDigit ['1', '2', ':', '3', '4']) with
       | .error e => .error (.ParseError e)
       | .ok line =>
         match parseUsize ((List.dropWhile Char.isDigit
             ['1', '2', ':', '3', '4']).tail) with
         | .error e => .error (.ParseError e)
         | .ok column => .ok (FilePos.new line column)) :=
  ⟨by decide,
   (fromStr_splits_at_first_nondigit ['1', '2', ':', '3', '4']).2.1 (by decide)⟩
